import Mathlib

/-!
Verification of quad-net's `http_request.rs` against its specification.

The file shallowly embeds the data model and the two backends of the
single-shot asynchronous HTTP request primitive:

* the `RequestBuilder` (url, method, headers, optional body);
* the native backend: worker thread computing a `Result<String, HttpError>`,
  a one-slot mpsc channel, a mutex-guarded `SharedState` holding the
  receiver and an optional waker, and the `Future::poll` implementation;
* the sandboxed (wasm32) backend: `Request::try_recv` decoding the byte
  buffer returned by the host's `http_try_recv` foreign call.

External collaborators (the `ureq` transport, the host runtime) are
modelled as oracles: a transport is a function from the outbound call the
worker builds to either a `ureq::Error` or a `Response`, and the host is
the optional byte buffer its poll call returns.  Rust panics are embedded
as `Except.error`; machine-level details that the claims do not touch
(TLS, the executor) stay outside the model.
-/

namespace QuadNet

/-- `Method` from `http_request.rs`: closed enumeration of HTTP verbs. -/
inductive Method where
  | Post
  | Put
  | Get
  | Delete
deriving DecidableEq, Repr

/-- Opaque stand-in for `ureq::Error` (the native transport library's
error type); the code only stores and displays it. -/
structure UreqErr where
  code : Nat
deriving DecidableEq, Repr

/-- Opaque stand-in for `std::io::Error`; `From<std::io::Error> for
HttpError` discards all its detail. -/
structure IoErr where
  code : Nat
deriving DecidableEq, Repr

/-- `HttpError` from `http_request.rs`: `IOError`, plus (native only)
`UreqError` wrapping the transport library's error. -/
inductive HttpError where
  | IOError
  | UreqError (e : UreqErr)
deriving DecidableEq, Repr

/-- `impl From<std::io::Error> for HttpError`: every io error maps to
`IOError`, dropping the detail. -/
def HttpError.ofIoErr (_e : IoErr) : HttpError :=
  HttpError.IOError

/-- `impl From<ureq::Error> for HttpError`: wraps the transport error. -/
def HttpError.ofUreqErr (e : UreqErr) : HttpError :=
  HttpError.UreqError e

deriving instance DecidableEq for Except

/-- `Result<String, HttpError>`, the terminal result type of a request. -/
abbrev RequestResult := Except HttpError String

/-- Is `b` a UTF-8 continuation byte (`10xxxxxx`)? -/
def isCont (b : Nat) : Bool :=
  0x80 ≤ b && b ≤ 0xBF

/-- UTF-8 decoding of a byte sequence, as performed by
`std::str::from_utf8` / `String::from_utf8` and by `ureq`'s
`Response::into_string`: returns `none` exactly on malformed input
(stray continuation bytes, truncated sequences, overlong encodings,
surrogate code points, values above `U+10FFFF`). -/
def utf8Decode : List Nat → Option (List Char)
  | [] => some []
  | b0 :: rest =>
    if b0 < 0x80 then
      (utf8Decode rest).map (fun cs => Char.ofNat b0 :: cs)
    else if 0xC2 ≤ b0 && b0 ≤ 0xDF then
      match rest with
      | b1 :: rest1 =>
        if isCont b1 then
          (utf8Decode rest1).map
            (fun cs => Char.ofNat ((b0 - 0xC0) * 0x40 + (b1 - 0x80)) :: cs)
        else none
      | [] => none
    else if 0xE0 ≤ b0 && b0 ≤ 0xEF then
      match rest with
      | b1 :: b2 :: rest2 =>
        if isCont b1 && isCont b2
            && (b0 ≠ 0xE0 || 0xA0 ≤ b1)
            && (b0 ≠ 0xED || b1 ≤ 0x9F) then
          (utf8Decode rest2).map
            (fun cs =>
              Char.ofNat ((b0 - 0xE0) * 0x1000 + (b1 - 0x80) * 0x40
                + (b2 - 0x80)) :: cs)
        else none
      | _ => none
    else if 0xF0 ≤ b0 && b0 ≤ 0xF4 then
      match rest with
      | b1 :: b2 :: b3 :: rest3 =>
        if isCont b1 && isCont b2 && isCont b3
            && (b0 ≠ 0xF0 || 0x90 ≤ b1)
            && (b0 ≠ 0xF4 || b1 ≤ 0x8F) then
          (utf8Decode rest3).map
            (fun cs =>
              Char.ofNat ((b0 - 0xF0) * 0x40000 + (b1 - 0x80) * 0x1000
                + (b2 - 0x80) * 0x40 + (b3 - 0x80)) :: cs)
        else none
      | _ => none
    else none

/-- Is the byte sequence valid UTF-8? -/
def validUtf8 (buf : List Nat) : Bool :=
  (utf8Decode buf).isSome

/-- A transport-level response, reduced to the body bytes the worker
will try to decode; `ureq::Response` is opaque to this crate apart from
`into_string`. -/
structure Response where
  bytes : List Nat
deriving DecidableEq, Repr

/-- `ureq::Response::into_string`: decode the body bytes as UTF-8 text,
failing with an `std::io::Error` when they are not valid UTF-8. -/
def Response.into_string (r : Response) : Except IoErr String :=
  match utf8Decode r.bytes with
  | some cs => Except.ok (String.mk cs)
  | none => Except.error ⟨0⟩

/-- `RequestBuilder` from `http_request.rs`. -/
structure RequestBuilder where
  url : String
  method : Method
  headers : List (String × String)
  body : Option String
deriving DecidableEq, Repr

/-- `RequestBuilder::new(url)`. -/
def RequestBuilder.new (url : String) : RequestBuilder :=
  { url := url
    method := Method.Get
    headers := []
    body := none }

/-- `RequestBuilder::method`. -/
def RequestBuilder.setMethod (self : RequestBuilder) (method : Method) :
    RequestBuilder :=
  { self with method := method }

/-- `RequestBuilder::header`: pushes the pair at the end of the header
vector. -/
def RequestBuilder.header (self : RequestBuilder) (header value : String) :
    RequestBuilder :=
  { self with headers := self.headers ++ [(header, value)] }

/-- `RequestBuilder::body`. -/
def RequestBuilder.setBody (self : RequestBuilder) (body : String) :
    RequestBuilder :=
  { self with body := some body }

/-! ### Native backend: the worker closure's outbound call and result -/

/-- The `ureq` request value after `method(&self.url)` and a sequence of
`set(header, value)` calls; the transport library is external, so we
record exactly what the worker hands it: the verb, the url, and the
header applications in the order they were made. -/
structure UreqRequest where
  method : Method
  url : String
  applied : List (String × String)
deriving DecidableEq, Repr

/-- `ureq`'s `Request::set(header, value)`, as observed from outside:
one more header application, after all previous ones. -/
def UreqRequest.set (r : UreqRequest) (header value : String) :
    UreqRequest :=
  { r with applied := r.applied ++ [(header, value)] }

/-- Which of the two transport entry points the worker invoked:
`send_string(&body)` (body-bearing) or `call()` (bodiless). -/
inductive CallKind where
  | send_string (payload : String)
  | call
deriving DecidableEq, Repr

/-- Everything the worker hands the transport library: the configured
request and which entry point it invoked. -/
structure OutboundCall where
  req : UreqRequest
  kind : CallKind
deriving DecidableEq, Repr

/-- A transport oracle: what `ureq` answers to a given outbound call
(`Err` is `ureq::Error`, `Ok` a response whose body is a byte buffer). -/
def Transport := OutboundCall → Except UreqErr Response

/-- The outbound call the native worker closure builds from the spec:
pick the verb entry point, fold `set` over the headers in vector order,
then invoke `send_string` when a body is present and `call` otherwise
(`RequestBuilder::send`, lines 153-168). -/
def workerOutbound (b : RequestBuilder) : OutboundCall :=
  let req0 : UreqRequest := { method := b.method, url := b.url, applied := [] }
  let req := b.headers.foldl (fun r hv => r.set hv.1 hv.2) req0
  match b.body with
  | some body => { req := req, kind := CallKind.send_string body }
  | none => { req := req, kind := CallKind.call }

/-- The result the native worker computes
(`RequestBuilder::send`, lines 164-170):
`.map_err(|err| err.into())` turns a transport failure into
`HttpError::UreqError`, and
`.and_then(|response| response.into_string().map_err(|err| err.into()))`
turns a decoding failure into `HttpError::IOError`. -/
def workerResult (transport : Transport) (b : RequestBuilder) :
    RequestResult :=
  match transport (workerOutbound b) with
  | Except.error e => Except.error (HttpError.ofUreqErr e)
  | Except.ok response =>
    match response.into_string with
    | Except.error e => Except.error (HttpError.ofIoErr e)
    | Except.ok s => Except.ok s

/-! ### Native backend: channel, shared state and `Future::poll` -/

/-- A waker handle; opaque to the code, compared by identity here so the
model can tell which waker was stored and which was invoked. -/
structure Waker where
  id : Nat
deriving DecidableEq, Repr

/-- The `std::sync::mpsc` channel between the worker thread and the
`Request`: the queued messages, and whether the receiving half is still
alive (a send fails exactly when it is not). -/
structure Channel where
  queue : List RequestResult
  receiverAlive : Bool

/-- `Sender::send`: enqueues the message, failing iff the receiver has
been dropped. -/
def Channel.send (c : Channel) (r : RequestResult) :
    Except Unit Channel :=
  if c.receiverAlive then
    Except.ok { c with queue := c.queue ++ [r] }
  else
    Except.error ()

/-- `Receiver::try_recv().ok()`: pop the front message if any; both the
empty and the disconnected error collapse to `none`. -/
def Channel.try_recv (c : Channel) : Option RequestResult × Channel :=
  match c.queue with
  | [] => (none, c)
  | r :: rest => (some r, { c with queue := rest })

/-- `SharedState` from `http_request.rs`: the channel receiver and the
optional waker, both behind one mutex.  The model keeps the whole
channel here since the receiving half lives in this struct. -/
structure SharedState where
  chan : Channel
  waker : Option Waker

/-- `Poll<Result<String, HttpError>>`. -/
inductive PollOutcome where
  | Ready (r : RequestResult)
  | Pending

/-- Whether an outcome is `Ready`. -/
def PollOutcome.isReady : PollOutcome → Bool
  | PollOutcome.Ready _ => true
  | PollOutcome.Pending => false

/-- `impl Future for Request`, `poll` (lines 66-74): under the lock, try
a non-blocking receive; on a message return `Ready` with it, otherwise
store the current waker (overwriting any previous one) and return
`Pending`.  The returned state is the shared state after the lock is
released. -/
def Request.poll (s : SharedState) (cx : Waker) :
    PollOutcome × SharedState :=
  match s.chan.try_recv with
  | (some result, chan) => (PollOutcome.Ready result, { s with chan := chan })
  | (none, _) => (PollOutcome.Pending, { s with waker := some cx })

/-! ### Native backend: whole-system interleaving model

The worker thread's body after computing its result is the straight-line
program `tx.send(response).unwrap(); lock; waker.take().map(wake)` and
then the closure returns, dropping its `Arc` clone of the shared state.
The polling task's only step is one `poll` call (one lock section), and
the caller may drop its `Request` (its `Arc` clone) at any time.  Each
lock section is one atomic step; interleavings are schedules of labelled
steps. -/

/-- Global state of one native request: the two `Arc` references to the
`SharedState` (the `Request`'s and the worker closure's), the channel
queue, the waker slot, the trace of wakers invoked, what the observed
poll returned, and whether any step panicked. -/
structure SysState where
  requestRef : Bool
  workerRef : Bool
  queue : List RequestResult
  waker : Option Waker
  woken : List Waker
  pollReturned : Option PollOutcome
  panicked : Bool

/-- The channel as the worker's `tx.send` sees it: the receiver lives in
`SharedState`, which is alive while either `Arc` reference is held. -/
def SysState.chanOf (s : SysState) : Channel :=
  { queue := s.queue, receiverAlive := s.requestRef || s.workerRef }

/-- Worker step 1: `tx.send(response).unwrap()` — a failed send panics
the worker thread. -/
def stepSend (r : RequestResult) (s : SysState) : SysState :=
  match s.chanOf.send r with
  | Except.ok chan => { s with queue := chan.queue }
  | Except.error _ => { s with panicked := true }

/-- Worker step 2: `state.lock(); if let Some(waker) = waker.take()
 { waker.wake() }`. -/
def stepWake (s : SysState) : SysState :=
  match s.waker with
  | some w => { s with waker := none, woken := s.woken ++ [w] }
  | none => s

/-- Worker step 3: the closure returns and its captured `Arc` clone is
dropped. -/
def stepWorkerEnd (s : SysState) : SysState :=
  { s with workerRef := false }

/-- The polling task's step: one `Future::poll` call with waker `cx`
(one lock section, see `Request.poll`). -/
def stepPoll (cx : Waker) (s : SysState) : SysState :=
  match Request.poll { chan := s.chanOf, waker := s.waker } cx with
  | (outcome, shared) =>
    { s with
      queue := shared.chan.queue
      waker := shared.waker
      pollReturned := some outcome }

/-- The caller drops its `Request`, releasing its `Arc` clone. -/
def stepDrop (s : SysState) : SysState :=
  { s with requestRef := false }

/-- Step labels for schedules. -/
inductive Label where
  | send (r : RequestResult)
  | wake
  | workerEnd
  | poll (cx : Waker)
  | drop
deriving DecidableEq

/-- Execute one labelled step. -/
def runStep (s : SysState) : Label → SysState
  | Label.send r => stepSend r s
  | Label.wake => stepWake s
  | Label.workerEnd => stepWorkerEnd s
  | Label.poll cx => stepPoll cx s
  | Label.drop => stepDrop s

/-- Execute a schedule from a state. -/
def run (s : SysState) (sched : List Label) : SysState :=
  sched.foldl runStep s

/-- The state right after `RequestBuilder::send` has created the channel
and shared state and spawned the worker: empty queue, no waker, both
`Arc` references held, nothing delivered or woken yet. -/
def initState : SysState :=
  { requestRef := true
    workerRef := true
    queue := []
    waker := none
    woken := []
    pollReturned := none
    panicked := false }

/-- The schedules interleaving the single poll (waker `cx`) with the
worker's delivery steps `send r; wake`: the poll's lock section comes
before the send, between send and wake, or after both. -/
def pollInterleavings (r : RequestResult) (cx : Waker) :
    List (List Label) :=
  [ [Label.poll cx, Label.send r, Label.wake],
    [Label.send r, Label.poll cx, Label.wake],
    [Label.send r, Label.wake, Label.poll cx] ]

/-- The schedules interleaving the caller's `drop` of the `Request` with
the worker's full run `send r; wake; workerEnd`. -/
def dropInterleavings (r : RequestResult) : List (List Label) :=
  [ [Label.drop, Label.send r, Label.wake, Label.workerEnd],
    [Label.send r, Label.drop, Label.wake, Label.workerEnd],
    [Label.send r, Label.wake, Label.drop, Label.workerEnd],
    [Label.send r, Label.wake, Label.workerEnd, Label.drop] ]

/-! ### Sandboxed (wasm32) backend -/

/-- Result of one wasm `Request::try_recv` call: the produced value,
with a Rust panic embedded as `Except.error ()`, and the wake
registrations made during the call (this backend has no waker slot at
all, so the code can never register one). -/
structure WasmPoll where
  outcome : Except Unit (Option RequestResult)
  wakesRegistered : List Waker
deriving DecidableEq

/-- `Request::try_recv` (wasm32, lines 91-103): call `http_try_recv`;
when the returned object is not nil, copy it into a byte buffer and run
`std::str::from_utf8(&buf).unwrap().to_owned()` — which panics when the
buffer is not valid UTF-8 — and return `Some(Ok(text))`; on the nil
sentinel return `None`.  The host's answer is modelled as `none` (nil
object) or `some buf` (the byte buffer). -/
def wasmTryRecv (host : Option (List Nat)) : WasmPoll :=
  match host with
  | none => { outcome := Except.ok none, wakesRegistered := [] }
  | some buf =>
    match utf8Decode buf with
    | some cs =>
      { outcome := Except.ok (some (Except.ok (String.mk cs)))
        wakesRegistered := [] }
    | none => { outcome := Except.error (), wakesRegistered := [] }

/-- The sequence of `RequestBuilder::header` calls `hs`, applied in
order to builder `b`. -/
def applyHeaderCalls (b : RequestBuilder) (hs : List (String × String)) :
    RequestBuilder :=
  hs.foldl (fun acc hv => acc.header hv.1 hv.2) b

/-! ### Helper lemmas -/

/-- A sequence of `header` builder calls appends its pairs, in call
order, to the header vector. -/
theorem applyHeaderCalls_headers :
    ∀ (hs : List (String × String)) (b : RequestBuilder),
      (applyHeaderCalls b hs).headers = b.headers ++ hs
  | [], b => by simp [applyHeaderCalls]
  | hv :: rest, b => by
    have e : applyHeaderCalls b (hv :: rest)
        = applyHeaderCalls (b.header hv.1 hv.2) rest := rfl
    rw [e, applyHeaderCalls_headers rest (b.header hv.1 hv.2)]
    simp [RequestBuilder.header]

/-- Folding `UreqRequest.set` over a pair list appends the pairs, in
order, to the applied-header trace. -/
theorem foldl_set_applied :
    ∀ (hs : List (String × String)) (r : UreqRequest),
      (hs.foldl (fun acc hv => acc.set hv.1 hv.2) r).applied
        = r.applied ++ hs
  | [], r => by simp
  | hv :: rest, r => by
    have e : (hv :: rest).foldl (fun acc hv => acc.set hv.1 hv.2) r
        = rest.foldl (fun acc hv => acc.set hv.1 hv.2) (r.set hv.1 hv.2) := rfl
    rw [e, foldl_set_applied rest (r.set hv.1 hv.2)]
    simp [UreqRequest.set]

/-- The worker applies exactly the builder's header vector to the
outbound request (in vector order). -/
theorem workerOutbound_applied (b : RequestBuilder) :
    (workerOutbound b).req.applied = b.headers := by
  cases hb : b.body <;> simp [workerOutbound, hb, foldl_set_applied]

/-! ### The claims -/

/-- Claim C1: the claim asserts that a response byte buffer that is not
valid UTF-8 surfaces as `Err(HttpError::IOError)` and never a panic on
both backends.  The native half holds — the worker maps the failing
`response.into_string()` to `IOError` — but on the sandboxed backend the
invalid buffer `[0xFF]` makes `Request::try_recv` panic inside
`std::str::from_utf8(&buf).unwrap()` instead of surfacing any error. -/
theorem C1_invalid_utf8_native_ioerror_wasm_panics :
    validUtf8 [0xFF] = false
    ∧ workerResult (fun _ => Except.ok { bytes := [0xFF] })
        (RequestBuilder.new "http://example.com")
      = Except.error HttpError.IOError
    ∧ (wasmTryRecv (some [0xFF])).outcome = Except.error () := by
  refine ⟨rfl, rfl, rfl⟩

/-- Claim C2: one native poll: when the channel has a result queued,
`poll` returns `Ready` with it immediately (waker slot untouched);
otherwise it stores the current poll's waker — overwriting any
previously stored one — and returns `Pending`. -/
theorem C2_poll_ready_or_store_waker (s : SharedState) (cx : Waker) :
    (∀ r rest, s.chan.queue = r :: rest →
      Request.poll s cx
        = (PollOutcome.Ready r, { s with chan := { s.chan with queue := rest } }))
    ∧ (s.chan.queue = [] →
      Request.poll s cx = (PollOutcome.Pending, { s with waker := some cx })) := by
  obtain ⟨⟨q, alive⟩, w⟩ := s
  constructor
  · intro r rest h
    simp only at h
    subst h
    rfl
  · intro h
    simp only at h
    subst h
    rfl

/-- Witness for C2 at concrete states: a queued result comes back
`Ready`; on the empty queue the previously stored waker 5 is overwritten
by the polling waker 7 and the poll is `Pending`. -/
theorem C2_poll_ready_or_store_waker_witness :
    Request.poll
        { chan := { queue := [Except.ok "r"], receiverAlive := true },
          waker := some ⟨5⟩ } ⟨7⟩
      = (PollOutcome.Ready (Except.ok "r"),
         { chan := { queue := [], receiverAlive := true }, waker := some ⟨5⟩ })
    ∧ Request.poll
        { chan := { queue := [], receiverAlive := true }, waker := some ⟨5⟩ } ⟨7⟩
      = (PollOutcome.Pending,
         { chan := { queue := [], receiverAlive := true }, waker := some ⟨7⟩ }) :=
  ⟨(C2_poll_ready_or_store_waker _ _).1 (Except.ok "r") [] rfl,
   (C2_poll_ready_or_store_waker _ _).2 rfl⟩

/-- Claim C3: for every interleaving of the polling task's single lock
section with the worker's delivery steps (`send` the result, then take
and invoke the waker under the lock), the run completes without panic
and the wake is never lost: either the poll observed `Ready` with the
delivered result, or it returned `Pending` and the worker's subsequent
wake step invoked exactly the waker the poll registered. -/
theorem C3_no_lost_wakeup (r : RequestResult) (cx : Waker)
    (sched : List Label) (hmem : sched ∈ pollInterleavings r cx) :
    (run initState sched).panicked = false
    ∧ ((run initState sched).pollReturned = some (PollOutcome.Ready r)
      ∨ ((run initState sched).pollReturned = some PollOutcome.Pending
        ∧ (run initState sched).woken = [cx])) := by
  simp only [pollInterleavings, List.mem_cons, List.not_mem_nil, or_false] at hmem
  rcases hmem with h | h | h <;> subst h
  · exact ⟨rfl, Or.inr ⟨rfl, rfl⟩⟩
  · exact ⟨rfl, Or.inl rfl⟩
  · exact ⟨rfl, Or.inl rfl⟩

/-- Witness for C3: the poll-first interleaving returns `Pending` and
the worker then wakes exactly the registered waker 7. -/
theorem C3_no_lost_wakeup_witness :
    (run initState
        [Label.poll ⟨7⟩, Label.send (Except.ok "body"), Label.wake]).panicked = false
    ∧ ((run initState
          [Label.poll ⟨7⟩, Label.send (Except.ok "body"), Label.wake]).pollReturned
        = some (PollOutcome.Ready (Except.ok "body"))
      ∨ ((run initState
            [Label.poll ⟨7⟩, Label.send (Except.ok "body"), Label.wake]).pollReturned
          = some PollOutcome.Pending
        ∧ (run initState
            [Label.poll ⟨7⟩, Label.send (Except.ok "body"), Label.wake]).woken
          = [⟨7⟩])) :=
  C3_no_lost_wakeup (Except.ok "body") ⟨7⟩ _ (List.mem_cons_self _ _)

/-- Claim C4: exactly one terminal result: when the channel holds at
most one message (the worker sends exactly one), a poll that returned
`Ready` has emptied the channel, so the next poll (a total function — no
panic) returns `Pending`, never a second terminal value. -/
theorem C4_terminal_result_is_unique (s : SharedState) (cx cx2 : Waker)
    (r : RequestResult)
    (hone : s.chan.queue.length ≤ 1)
    (hready : (Request.poll s cx).1 = PollOutcome.Ready r) :
    (Request.poll (Request.poll s cx).2 cx2).1 = PollOutcome.Pending := by
  obtain ⟨⟨q, alive⟩, w⟩ := s
  match q with
  | [] => simp [Request.poll, Channel.try_recv] at hready
  | [a] => rfl
  | a :: b :: rest => simp at hone

/-- Witness for C4: the channel filled with the single result "done" is
emptied by the first `Ready` poll, and the second poll is `Pending`. -/
theorem C4_terminal_result_is_unique_witness :
    (Request.poll
      (Request.poll
        { chan := { queue := [Except.ok "done"], receiverAlive := true },
          waker := none } ⟨1⟩).2 ⟨2⟩).1 = PollOutcome.Pending :=
  C4_terminal_result_is_unique _ ⟨1⟩ ⟨2⟩ (Except.ok "done") (by simp) rfl

/-- Claim C5: the worker's result taxonomy: a transport-call failure
maps to `HttpError::UreqError` (the spec's TransportError) wrapping the
transport library's error; a failure of the response-to-text decoding
step maps to `HttpError::IOError`; otherwise the result is `Ok` of the
decoded response text. -/
theorem C5_worker_error_taxonomy (t : Transport) (b : RequestBuilder) :
    (∀ e, t (workerOutbound b) = Except.error e →
      workerResult t b = Except.error (HttpError.UreqError e))
    ∧ (∀ resp, t (workerOutbound b) = Except.ok resp →
      validUtf8 resp.bytes = false →
      workerResult t b = Except.error HttpError.IOError)
    ∧ (∀ resp cs, t (workerOutbound b) = Except.ok resp →
      utf8Decode resp.bytes = some cs →
      workerResult t b = Except.ok (String.mk cs)) := by
  refine ⟨?_, ?_, ?_⟩
  · intro e h
    simp [workerResult, h, HttpError.ofUreqErr]
  · intro resp h hdec
    have hnone : utf8Decode resp.bytes = none := by
      cases hx : utf8Decode resp.bytes
      · rfl
      · simp [validUtf8, hx] at hdec
    simp [workerResult, h, Response.into_string, hnone, HttpError.ofIoErr]
  · intro resp cs h hdec
    simp [workerResult, h, Response.into_string, hdec]

/-- Witness for C5, one concrete transport per branch: a transport error
3, an overlong (invalid) body `[0xC0, 0x80]`, and the valid body
`[0x41]` decoding to "A". -/
theorem C5_worker_error_taxonomy_witness :
    workerResult (fun _ => Except.error ⟨3⟩) (RequestBuilder.new "u")
      = Except.error (HttpError.UreqError ⟨3⟩)
    ∧ workerResult (fun _ => Except.ok { bytes := [0xC0, 0x80] })
        (RequestBuilder.new "u")
      = Except.error HttpError.IOError
    ∧ workerResult (fun _ => Except.ok { bytes := [0x41] })
        (RequestBuilder.new "u")
      = Except.ok (String.mk [Char.ofNat 0x41]) :=
  ⟨(C5_worker_error_taxonomy _ _).1 ⟨3⟩ rfl,
   (C5_worker_error_taxonomy _ _).2.1 { bytes := [0xC0, 0x80] } rfl (by decide),
   (C5_worker_error_taxonomy _ _).2.2 { bytes := [0x41] } [Char.ofNat 0x41] rfl
     (by decide)⟩

/-- Claim C6: the worker invokes the body-bearing `send_string` exactly
when the spec's body is present, and the bodiless `call` exactly when it
is absent; in particular a Post with body "payload" takes the
payload-sending path and a bare Get takes the bodiless path. -/
theorem C6_body_presence_selects_call_path :
    (∀ b : RequestBuilder,
      (workerOutbound b).kind
        = match b.body with
          | some payload => CallKind.send_string payload
          | none => CallKind.call)
    ∧ (workerOutbound
        (((RequestBuilder.new "u").setMethod Method.Post).setBody "payload")).kind
      = CallKind.send_string "payload"
    ∧ (workerOutbound (RequestBuilder.new "u")).kind = CallKind.call := by
  refine ⟨?_, rfl, rfl⟩
  intro b
  cases hb : b.body <;> simp [workerOutbound, hb]

/-- Claim C7: header insertion order end-to-end: a sequence of `header`
builder calls yields exactly that sequence, in call order, as the spec's
header list, and the worker applies the same sequence in the same order
to the outbound call; in particular [("A","1"),("B","2")] is presented
in that order. -/
theorem C7_header_order_end_to_end (b : RequestBuilder)
    (hs : List (String × String)) :
    (applyHeaderCalls b hs).headers = b.headers ++ hs
    ∧ (workerOutbound (applyHeaderCalls b hs)).req.applied = b.headers ++ hs
    ∧ (workerOutbound
        (applyHeaderCalls (RequestBuilder.new "u") [("A", "1"), ("B", "2")])).req.applied
      = [("A", "1"), ("B", "2")] := by
  refine ⟨applyHeaderCalls_headers hs b, ?_, rfl⟩
  rw [workerOutbound_applied, applyHeaderCalls_headers]

/-- Claim C8: on the nil sentinel from the host's poll call, the wasm
`Request::try_recv` returns the pending value `None`: no panic, no
error, and no wake registration. -/
theorem C8_sentinel_pending_no_error_no_wake :
    wasmTryRecv none = { outcome := Except.ok none, wakesRegistered := [] } :=
  rfl

/-- Claim C9: the worker's `tx.send(...).unwrap()` cannot panic:
whenever the caller drops its `Request` — before, between, or after the
worker's steps — the worker's own `Arc` clone keeps the `SharedState`
(and the channel receiver inside it) alive through the send, so no
schedule panics. -/
theorem C9_worker_send_cannot_fail (r : RequestResult)
    (sched : List Label) (hmem : sched ∈ dropInterleavings r) :
    (run initState sched).panicked = false := by
  simp only [dropInterleavings, List.mem_cons, List.not_mem_nil, or_false] at hmem
  rcases hmem with h | h | h | h <;> subst h <;> rfl

/-- Witness for C9: the caller drops the `Request` before the worker
sends, and the send still succeeds. -/
theorem C9_worker_send_cannot_fail_witness :
    (run initState
      [Label.drop, Label.send (Except.ok "body"), Label.wake,
        Label.workerEnd]).panicked = false :=
  C9_worker_send_cannot_fail (Except.ok "body") _ (List.mem_cons_self _ _)

/-- Claim C10: `RequestBuilder::new(url)` defaults to method Get, empty
header vector, and no body; sending it unchanged dispatches a bodiless
Get with no headers applied. -/
theorem C10_new_defaults (url : String) :
    RequestBuilder.new url
      = { url := url, method := Method.Get, headers := [], body := none }
    ∧ workerOutbound (RequestBuilder.new url)
      = { req := { method := Method.Get, url := url, applied := [] },
          kind := CallKind.call } :=
  ⟨rfl, rfl⟩

end QuadNet
